import Mathlib

/-!
Verification of the billing-calculation and time-tracking-session subsystem of
the ButterflyManager repository (a TypeScript/Express/Prisma application).

The embedding below translates the relevant TypeScript functions into Lean:

* `apps/server/src/utils/billing.ts` (current revision, importing
  `../types/prisma`): `calculateProjectStats`, `countBillingPeriods`,
  `calculateProjectBillableAmount`.  An earlier revision of the same file
  (importing `@prisma/client`) computed `totalHours` as true decimal hours;
  it is embedded as `calculateProjectStatsLegacy`.
* `apps/server/src/routes/projects.ts`: the time-entry route handlers
  start / resume / stop / update / delete.
* `apps/server/src/routes/timeEntries.ts`: the user-scoped PUT handler
  (`updateTimeEntryUserScoped`).

Modelling conventions:
* JavaScript numbers are modelled as `ℚ` (money, rates, hours) and `Int`
  (millisecond timestamps, minute durations); floating-point rounding error
  is out of scope.
* `Date` values are milliseconds since the Unix epoch (`Int`).  The server is
  assumed to run with the UTC timezone, so `getFullYear` / `getMonth` /
  `getDate` / `getDay` agree with `toISOString`; the civil-calendar
  conversion below is the standard days-to-Gregorian algorithm.
* Prisma queries become `List.filter` / `List.find?` over an explicit
  database state; `prisma.xxx.update` becomes a map replacing the record
  with the matching id.
* JavaScript truthiness on nullable numbers (`if (project.hourlyRate)`,
  `entry.durationMinutes || 0`, `note || null`) is modelled by the
  `jsTruthy`, `jsOrZero` and `jsStrOrNull` helpers.
* Thrown `AppError`s become an `ApiError` value carrying the literal message
  and HTTP status; the constructor records the error kind of the spec's
  taxonomy (conflict / not-found / validation).
-/

namespace ButterflyManager

/-- `Math.round`: round half toward positive infinity. -/
def jsRound (q : ℚ) : Int := ⌊q + 1 / 2⌋

/-- `Math.round(x * 100) / 100`: round to two decimals. -/
def round2 (q : ℚ) : ℚ := (jsRound (q * 100) : ℚ) / 100

/-- `x || 0` on a nullable integer. -/
def jsOrZero : Option Int → Int
  | some d => d
  | none => 0

/-- Truthiness of a nullable numeric field (`null` and `0` are falsy). -/
def jsTruthy : Option ℚ → Bool
  | some a => decide (a ≠ 0)
  | none => false

/-- `s || null` on a nullable string (the empty string is falsy). -/
def jsStrOrNull : Option String → Option String
  | some s => if s = "" then none else some s
  | none => none

def msPerMinute : Int := 60000

def msPerDay : Int := 86400000

/-- Day index (days since 1970-01-01) of a millisecond timestamp. -/
def daysOfMs (ms : Int) : Int := Int.ediv ms msPerDay

/-- Gregorian civil date `(year, month, day)` of a day index (the standard
days-from-epoch conversion; months are 1-based as in `getMonth() + 1`). -/
def civilFromDays (z0 : Int) : Int × Int × Int :=
  let z := z0 + 719468
  let era : Int := Int.ediv z 146097
  let doe : Int := z - era * 146097
  let yoe : Int := Int.ediv (doe - Int.ediv doe 1460 + Int.ediv doe 36524 - Int.ediv doe 146096) 365
  let y : Int := yoe + era * 400
  let doy : Int := doe - (365 * yoe + Int.ediv yoe 4 - Int.ediv yoe 100)
  let mp : Int := Int.ediv (5 * doy + 2) 153
  let d : Int := doy - Int.ediv (153 * mp + 2) 5 + 1
  let m : Int := if mp < 10 then mp + 3 else mp - 9
  (if m ≤ 2 then y + 1 else y, m, d)

/-- `Date.prototype.getDay` (0 = Sunday) of a day index; 1970-01-01 was a
Thursday. -/
def jsGetDay (z : Int) : Int := Int.emod (z + 4) 7

/-- `String(n).padStart(2, '0')` for the calendar fields (always in 1..31). -/
def pad2 (n : Int) : String := if n < 10 then "0" ++ toString n else toString n

/-- The date part of `toISOString()` for a day index: `YYYY-MM-DD`. -/
def isoDateOfDays (z : Int) : String :=
  let c := civilFromDays z
  toString c.1 ++ "-" ++ pad2 c.2.1 ++ "-" ++ pad2 c.2.2

/-- Monthly period key of a timestamp:
`` `${date.getFullYear()}-${String(date.getMonth() + 1).padStart(2, '0')}` ``. -/
def monthKeyOfMs (ms : Int) : String :=
  let c := civilFromDays (daysOfMs ms)
  toString c.1 ++ "-" ++ pad2 c.2.1

/-- Weekly period key of a timestamp: the ISO date of the Sunday-aligned week
start (`weekStart.setDate(date.getDate() - date.getDay())`, which shifts the
date back by `getDay()` days, then `toISOString().split('T')[0]`). -/
def weekKeyOfMs (ms : Int) : String :=
  isoDateOfDays (daysOfMs ms - jsGetDay (daysOfMs ms))

/-- The `switch (periodType)` of `countBillingPeriods`: the `'WEEKLY'` case
uses the week key; `'MONTHLY'` and the `default` case use the month key. -/
def periodKeyOfMs (periodType : Option String) (ms : Int) : String :=
  if periodType == some "WEEKLY" then weekKeyOfMs ms else monthKeyOfMs ms

inductive BillingMode
  | FIXED_TOTAL
  | RECURRING_PERIOD
  | HOURLY
deriving DecidableEq, Repr

/-- A `TimeEntry` row (`startedAt`, `endedAt` as ms timestamps). -/
structure TimeEntry where
  id : String
  projectId : String
  userId : String
  startedAt : Int
  endedAt : Option Int
  durationMinutes : Option Int
  note : Option String
deriving DecidableEq, Repr

/-- The billing-relevant columns of a `Project` row. -/
structure Project where
  id : String
  userId : String
  billingMode : BillingMode
  fixedTotalAmount : Option ℚ
  recurringAmount : Option ℚ
  recurringPeriodType : Option String
  hourlyRate : Option ℚ
deriving DecidableEq, Repr

/-- The billing-relevant columns of a `Payment` row. -/
structure Payment where
  id : String
  projectId : Option String
  amount : ℚ
deriving DecidableEq, Repr

structure ProjectStats where
  totalHours : ℚ
  totalIncome : ℚ
  effectiveHourlyRate : Option ℚ
deriving DecidableEq, Repr

/-- The prisma filter of the current `calculateProjectStats`:
`projectId = project.id`, `endedAt: { not: null }`,
`durationMinutes: { not: null, gt: 0 }`. -/
def completedFilter (projectId : String) (e : TimeEntry) : Bool :=
  e.projectId == projectId && e.endedAt.isSome &&
    (match e.durationMinutes with
     | some d => decide (0 < d)
     | none => false)

/-- The prisma filter of the legacy `calculateProjectStats` and of
`calculateProjectBillableAmount`: `projectId = project.id`,
`durationMinutes: { not: null }`. -/
def durationNotNullFilter (projectId : String) (e : TimeEntry) : Bool :=
  e.projectId == projectId && e.durationMinutes.isSome

/-- `countBillingPeriods` (identical in both revisions of `billing.ts`):
the size of the `Set` of period keys of the given entries. -/
def countBillingPeriods (timeEntries : List TimeEntry) (periodType : Option String) : Nat :=
  if timeEntries.length = 0 then 0
  else ((timeEntries.map fun e => periodKeyOfMs periodType e.startedAt).dedup).length

/-- The `hours.minutes` display encoding of the current revision:
`parseFloat(&dollar;{Math.floor(totalMinutes / 60)}.&dollar;{String(totalMinutes % 60).padStart(2, '0')})`,
so 100 minutes become 1.40.  (On the reachable domain `totalMinutes ≥ 0`,
`Int.ediv`/`Int.emod` agree with `Math.floor` and JavaScript `%`.) -/
def hoursMinutesEncoding (totalMinutes : Int) : ℚ :=
  (Int.ediv totalMinutes 60 : ℚ) + (Int.emod totalMinutes 60 : ℚ) / 100

/-- Total of `payment.amount` over the payments of the project
(`prisma.payment.findMany({ where: { projectId: project.id } })` followed by
`reduce((sum, payment) => sum + Number(payment.amount), 0)`). -/
def totalIncomeOf (projectId : String) (payments : List Payment) : ℚ :=
  ((payments.filter fun p => p.projectId == some projectId).map Payment.amount).sum

/-- The `switch (project.billingMode)` computing `effectiveHourlyRate`,
shared verbatim by both revisions of `calculateProjectStats` (they differ
only in the entries fetched and in the `totalHours` fed into it). -/
def effectiveRateSwitch (project : Project) (timeEntries : List TimeEntry)
    (totalHours : ℚ) : Option ℚ :=
  match project.billingMode with
  | .FIXED_TOTAL =>
    if decide (0 < totalHours) && jsTruthy project.fixedTotalAmount then
      some (round2 (project.fixedTotalAmount.getD 0 / totalHours))
    else none
  | .RECURRING_PERIOD =>
    if decide (0 < totalHours) && jsTruthy project.recurringAmount then
      let periodCount := countBillingPeriods timeEntries project.recurringPeriodType
      if 0 < periodCount then
        some (round2 (project.recurringAmount.getD 0 * (periodCount : ℚ) / totalHours))
      else none
    else none
  | .HOURLY =>
    if jsTruthy project.hourlyRate then project.hourlyRate else none

/-- `calculateProjectStats` of the current `billing.ts` revision: completed
entries are those with a non-null end and a duration strictly greater than 0,
and `totalHours` is the `hours.minutes` display encoding of their total
minutes. -/
def calculateProjectStats (project : Project) (db : List TimeEntry)
    (payments : List Payment) : ProjectStats :=
  let timeEntries := db.filter (completedFilter project.id)
  let totalMinutes := timeEntries.foldl (fun sum e => sum + jsOrZero e.durationMinutes) 0
  let totalHours := hoursMinutesEncoding totalMinutes
  { totalHours := totalHours
    totalIncome := totalIncomeOf project.id payments
    effectiveHourlyRate := effectiveRateSwitch project timeEntries totalHours }

/-- `calculateProjectStats` of the earlier `billing.ts` revision: entries are
filtered only by `durationMinutes: { not: null }` and `totalHours` is true
decimal hours `Math.round((totalMinutes / 60) * 100) / 100`. -/
def calculateProjectStatsLegacy (project : Project) (db : List TimeEntry)
    (payments : List Payment) : ProjectStats :=
  let timeEntries := db.filter (durationNotNullFilter project.id)
  let totalMinutes := timeEntries.foldl (fun sum e => sum + jsOrZero e.durationMinutes) 0
  let totalHours := round2 ((totalMinutes : ℚ) / 60)
  { totalHours := totalHours
    totalIncome := totalIncomeOf project.id payments
    effectiveHourlyRate := effectiveRateSwitch project timeEntries totalHours }

/-- `calculateProjectBillableAmount` (identical in both revisions). -/
def calculateProjectBillableAmount (project : Project) (db : List TimeEntry) : ℚ :=
  let timeEntries := db.filter (durationNotNullFilter project.id)
  let totalMinutes := timeEntries.foldl (fun sum e => sum + jsOrZero e.durationMinutes) 0
  match project.billingMode with
  | .FIXED_TOTAL => project.fixedTotalAmount.getD 0
  | .RECURRING_PERIOD =>
    project.recurringAmount.getD 0 *
      (countBillingPeriods timeEntries project.recurringPeriodType : ℚ)
  | .HOURLY => project.hourlyRate.getD 0 * ((totalMinutes : ℚ) / 60)

/-- A thrown `AppError`, tagged with the error kind of the spec's taxonomy
and carrying the literal message and HTTP status of the source. -/
inductive ApiError
  | conflictError (message : String) (status : Nat)
  | notFoundError (message : String) (status : Nat)
  | validationError (message : String) (status : Nat)
deriving DecidableEq, Repr

/-- The persistent state the time-entry routes read and write. -/
structure Db where
  projects : List Project
  entries : List TimeEntry
deriving DecidableEq, Repr

/-- `prisma.project.findFirst({ where: { id: projectId, userId } })`. -/
def findProject (db : Db) (projectId userId : String) : Option Project :=
  db.projects.find? fun p => p.id == projectId && p.userId == userId

/-- `prisma.timeEntry.findFirst({ where: { userId, projectId, endedAt: null } })`
— the per-project active-timer check shared by the start and resume routes. -/
def findActiveEntry (db : Db) (projectId userId : String) : Option TimeEntry :=
  db.entries.find? fun e =>
    e.userId == userId && e.projectId == projectId && e.endedAt == none

/-- `prisma.timeEntry.findFirst` with
`{ id, projectId, userId, endedAt: { not: null } }` — the closed source
interval looked up by the resume route. -/
def findResumeSource (db : Db) (projectId timeEntryId userId : String) : Option TimeEntry :=
  db.entries.find? fun e =>
    e.id == timeEntryId && e.projectId == projectId && e.userId == userId &&
      e.endedAt != none

/-- `prisma.timeEntry.findFirst` with `{ id, projectId, userId, endedAt: null }`
— the open interval looked up by the stop route. -/
def findOpenEntry (db : Db) (projectId timeEntryId userId : String) : Option TimeEntry :=
  db.entries.find? fun e =>
    e.id == timeEntryId && e.projectId == projectId && e.userId == userId &&
      e.endedAt == none

/-- `prisma.timeEntry.findFirst({ where: { id, projectId, userId } })` — the
ownership lookup of the project-scoped update and delete routes. -/
def findOwnedEntry (db : Db) (projectId timeEntryId userId : String) : Option TimeEntry :=
  db.entries.find? fun e =>
    e.id == timeEntryId && e.projectId == projectId && e.userId == userId

/-- `prisma.timeEntry.update({ where: { id }, data })`: replace the record
with the matching id. -/
def setEntry (db : Db) (timeEntryId : String) (e : TimeEntry) : Db :=
  { db with entries := db.entries.map fun x => if x.id == timeEntryId then e else x }

/-- POST `/:projectId/time-entries/start`: reject when the project is not
owned, fail with the running-timer conflict when the (user, project) scope
already has an open entry, otherwise create a fresh entry with
`startedAt = new Date()` and (per the schema defaults) null `endedAt`,
`durationMinutes` and `note`. -/
def startTimeEntry (db : Db) (projectId userId : String) (now : Int)
    (newId : String) : Except ApiError (Db × TimeEntry) :=
  match findProject db projectId userId with
  | none => .error (.notFoundError "Project not found" 404)
  | some _ =>
    match findActiveEntry db projectId userId with
    | some _ =>
      .error (.conflictError "You already have a timer running on this project." 400)
    | none =>
      let e : TimeEntry :=
        { id := newId, projectId := projectId, userId := userId,
          startedAt := now, endedAt := none, durationMinutes := none, note := none }
      .ok ({ db with entries := db.entries ++ [e] }, e)

/-- POST `/:projectId/time-entries/:timeEntryId/resume`: same ownership and
active-timer checks as start, then reopen the closed source entry in place —
`endedAt = null`, `durationMinutes = null`,
`startedAt = new Date(Date.now() - previousDurationMinutes * 60 * 1000)`
with `previousDurationMinutes = existingEntry.durationMinutes || 0`. -/
def resumeTimeEntry (db : Db) (projectId timeEntryId userId : String)
    (now : Int) : Except ApiError (Db × TimeEntry) :=
  match findProject db projectId userId with
  | none => .error (.notFoundError "Project not found" 404)
  | some _ =>
    match findActiveEntry db projectId userId with
    | some _ =>
      .error (.conflictError "You already have a timer running on this project." 400)
    | none =>
      match findResumeSource db projectId timeEntryId userId with
      | none => .error (.notFoundError "Time entry not found or still running" 404)
      | some existingEntry =>
        let previousDurationMinutes := jsOrZero existingEntry.durationMinutes
        let resumedEntry : TimeEntry :=
          { existingEntry with
            startedAt := now - previousDurationMinutes * 60 * 1000,
            endedAt := none,
            durationMinutes := none }
        .ok (setEntry db timeEntryId resumedEntry, resumedEntry)

/-- POST `/:projectId/time-entries/:timeEntryId/stop`: look up the open owned
entry (404 otherwise), set `endedAt = new Date()`,
`durationMinutes = Math.round((endedAt - startedAt) / (1000 * 60))` and
`note = note || null`. -/
def stopTimeEntry (db : Db) (projectId timeEntryId userId : String) (now : Int)
    (note : Option String) : Except ApiError (Db × TimeEntry) :=
  match findOpenEntry db projectId timeEntryId userId with
  | none => .error (.notFoundError "Active time entry not found" 404)
  | some timeEntry =>
    let durationMinutes := jsRound (((now - timeEntry.startedAt : Int) : ℚ) / (1000 * 60))
    let updatedEntry : TimeEntry :=
      { timeEntry with
        endedAt := some now,
        durationMinutes := some durationMinutes,
        note := jsStrOrNull note }
    .ok (setEntry db timeEntryId updatedEntry, updatedEntry)

/-- The request body of the project-scoped PUT
`/:projectId/time-entries/:timeEntryId`.  The outer `Option` is
presence in the body (`!== undefined`); for `endedAt`, `durationMinutes` and
`note` the inner `Option` is the nullable value. -/
structure TimeEntryPatch where
  startedAt : Option Int
  endedAt : Option (Option Int)
  durationMinutes : Option (Option Int)
  note : Option (Option String)
deriving DecidableEq, Repr

/-- PUT `/:projectId/time-entries/:timeEntryId` in `routes/projects.ts`:
after the project and entry ownership lookups (404 otherwise), an explicitly
provided `durationMinutes` is stored as given; otherwise the duration is
recomputed as `Math.round((end - start) / (1000 * 60))` when the patched
entry has both instants, and set to null when the patched end instant is
null.  No end-after-start validation is performed by this route. -/
def updateTimeEntry (db : Db) (projectId timeEntryId userId : String)
    (patch : TimeEntryPatch) : Except ApiError (Db × TimeEntry) :=
  match findProject db projectId userId with
  | none => .error (.notFoundError "Project not found" 404)
  | some _ =>
    match findOwnedEntry db projectId timeEntryId userId with
    | none => .error (.notFoundError "Time entry not found" 404)
    | some timeEntry =>
      let newStartedAt : Int := match patch.startedAt with
        | some s => s
        | none => timeEntry.startedAt
      let newEndedAt : Option Int := match patch.endedAt with
        | some v => v
        | none => timeEntry.endedAt
      let newDuration : Option Int :=
        match patch.durationMinutes with
        | some v => v
        | none =>
          match newEndedAt with
          | some endMs => some (jsRound (((endMs - newStartedAt : Int) : ℚ) / (1000 * 60)))
          | none => none
      let newNote : Option String := match patch.note with
        | some v => jsStrOrNull v
        | none => timeEntry.note
      let updatedEntry : TimeEntry :=
        { timeEntry with
          startedAt := newStartedAt,
          endedAt := newEndedAt,
          durationMinutes := newDuration,
          note := newNote }
      .ok (setEntry db timeEntryId updatedEntry, updatedEntry)

/-- DELETE `/:projectId/time-entries/:timeEntryId`: ownership checks, then
`prisma.timeEntry.delete({ where: { id } })`. -/
def deleteTimeEntry (db : Db) (projectId timeEntryId userId : String) :
    Except ApiError Db :=
  match findProject db projectId userId with
  | none => .error (.notFoundError "Project not found" 404)
  | some _ =>
    match findOwnedEntry db projectId timeEntryId userId with
    | none => .error (.notFoundError "Time entry not found" 404)
    | some _ =>
      .ok { db with entries := db.entries.filter fun e => !(e.id == timeEntryId) }

/-- The request body of the user-scoped PUT `/time-entries/:timeEntryId` in
`routes/timeEntries.ts` (`startedAt` and `endedAt` are optional date strings:
a provided value is always non-null, and the route cannot clear `endedAt`). -/
structure TimeEntryPatchUserScoped where
  startedAt : Option Int
  endedAt : Option Int
  note : Option String
deriving DecidableEq, Repr

/-- PUT `/time-entries/:timeEntryId` in `routes/timeEntries.ts`: looks the
entry up by `{ id, userId }` (404 otherwise); when the patched entry has both
instants it rejects `end <= start` with a 400 validation error and otherwise
recomputes `durationMinutes`; an open entry left without an end keeps its
stored duration untouched. -/
def updateTimeEntryUserScoped (db : Db) (timeEntryId userId : String)
    (patch : TimeEntryPatchUserScoped) : Except ApiError (Db × TimeEntry) :=
  match db.entries.find? (fun e => e.id == timeEntryId && e.userId == userId) with
  | none => .error (.notFoundError "Time entry not found" 404)
  | some timeEntry =>
    let newStartedAt : Int := match patch.startedAt with
      | some s => s
      | none => timeEntry.startedAt
    let newEndedAt : Option Int := match patch.endedAt with
      | some v => some v
      | none => timeEntry.endedAt
    let newNote : Option String := match patch.note with
      | some v => some v
      | none => timeEntry.note
    match newEndedAt with
    | some endMs =>
      if endMs ≤ newStartedAt then
        .error (.validationError "End time must be after start time" 400)
      else
        let updatedEntry : TimeEntry :=
          { timeEntry with
            startedAt := newStartedAt,
            endedAt := some endMs,
            durationMinutes := some (jsRound (((endMs - newStartedAt : Int) : ℚ) / (1000 * 60))),
            note := newNote }
        .ok (setEntry db timeEntryId updatedEntry, updatedEntry)
    | none =>
      let updatedEntry : TimeEntry :=
        { timeEntry with startedAt := newStartedAt, note := newNote }
      .ok (setEntry db timeEntryId updatedEntry, updatedEntry)

/-! ### Helper lemmas -/

theorem foldl_add_eq_sum (f : TimeEntry → Int) :
    ∀ (l : List TimeEntry) (a : Int),
      l.foldl (fun s e => s + f e) a = a + (l.map f).sum := by
  intro l
  induction l with
  | nil => intro a; simp
  | cons x xs ih =>
    intro a
    simp only [List.foldl_cons, List.map_cons, List.sum_cons, ih]
    ring

theorem sum_ge_one_of_forall_ge_one :
    ∀ (l : List Int), l ≠ [] → (∀ x ∈ l, 1 ≤ x) → 1 ≤ l.sum := by
  intro l
  induction l with
  | nil => intro h; exact absurd rfl h
  | cons x xs ih =>
    intro _ hall
    have hx : 1 ≤ x := hall x (List.mem_cons_self x xs)
    rcases List.eq_nil_or_concat xs with hnil | _
    · subst hnil; simpa using hx
    · have hxs : (0 : Int) ≤ xs.sum := by
        rcases List.eq_nil_or_concat xs with h0 | _
        · subst h0; simp
        · by_cases hxe : xs = []
          · subst hxe; simp
          · have := ih hxe (fun y hy => hall y (List.mem_cons_of_mem x hy))
            omega
      simp only [List.sum_cons]
      omega

theorem hoursMinutesEncoding_zero : hoursMinutesEncoding 0 = 0 := by
  norm_num [hoursMinutesEncoding]

theorem hoursMinutesEncoding_pos {tm : Int} (h : 0 < tm) :
    0 < hoursMinutesEncoding tm := by
  unfold hoursMinutesEncoding
  have h60 : (0 : Int) < 60 := by norm_num
  have hdiv : 0 ≤ Int.ediv tm 60 := Int.ediv_nonneg h.le h60.le
  have hmod : 0 ≤ Int.emod tm 60 := Int.emod_nonneg tm (by norm_num)
  have hsum : 60 * Int.ediv tm 60 + Int.emod tm 60 = tm := Int.ediv_add_emod tm 60
  rcases lt_or_eq_of_le hdiv with hq | hq
  · have : (1 : ℚ) ≤ (Int.ediv tm 60 : ℚ) := by exact_mod_cast hq
    have : (0 : ℚ) ≤ (Int.emod tm 60 : ℚ) / 100 := by positivity
    nlinarith
  · have hmod' : 0 < Int.emod tm 60 := by omega
    have h1 : (0 : ℚ) < (Int.emod tm 60 : ℚ) / 100 := by
      have : (0 : ℚ) < (Int.emod tm 60 : ℚ) := by exact_mod_cast hmod'
      positivity
    have h2 : (0 : ℚ) ≤ (Int.ediv tm 60 : ℚ) := by exact_mod_cast hdiv
    linarith

theorem jsRound_add_int (q : ℚ) (n : Int) : jsRound (q + n) = jsRound q + n := by
  unfold jsRound
  rw [show q + (n : ℚ) + 1 / 2 = q + 1 / 2 + (n : ℚ) by ring, Int.floor_add_int]

/-! ### Concrete records used by the witnesses and counterexamples -/

/-- A FIXED_TOTAL project with a 1000 fixed amount. -/
def fixedProject : Project :=
  { id := "p1", userId := "u1", billingMode := .FIXED_TOTAL,
    fixedTotalAmount := some 1000, recurringAmount := none,
    recurringPeriodType := none, hourlyRate := none }

/-- A completed 90-minute interval of `fixedProject` (2024-01-15 UTC). -/
def entry90 : TimeEntry :=
  { id := "t1", projectId := "p1", userId := "u1",
    startedAt := 1705276800000, endedAt := some (1705276800000 + 90 * 60000),
    durationMinutes := some 90, note := none }

/-- A completed zero-minute interval of `fixedProject`. -/
def entryZero : TimeEntry :=
  { id := "t0", projectId := "p1", userId := "u1",
    startedAt := 1705276800000, endedAt := some 1705276800000,
    durationMinutes := some 0, note := none }

/-- An open interval of `fixedProject`. -/
def entryOpen : TimeEntry :=
  { id := "t2", projectId := "p1", userId := "u1",
    startedAt := 1705276800000, endedAt := none,
    durationMinutes := none, note := none }

/-- An HOURLY project with hourlyRate 50. -/
def hourlyProject : Project :=
  { id := "p2", userId := "u1", billingMode := .HOURLY,
    fixedTotalAmount := none, recurringAmount := none,
    recurringPeriodType := none, hourlyRate := some 50 }

/-! ### C1 -/

/-- C1: the claim states that the `totalHours` value the rate computation
divides by equals true decimal hours (`round(totalMinutes / 60, 2)`), and
that the `hours.minutes` display encoding is never used inside a rate
computation.  The current `calculateProjectStats` violates this: for a
FIXED_TOTAL project with `fixedTotalAmount = 1000` and one completed
90-minute interval it encodes 90 minutes as `1.30` hours.minutes and divides
by that, returning 769.23, whereas true decimal hours are `1.50`, giving
666.67 — which is exactly what the earlier revision of `billing.ts`
(`calculateProjectStatsLegacy`) returns. -/
theorem C1_rate_divides_by_display_encoding :
    (calculateProjectStats fixedProject [entry90] []).totalHours = 13 / 10
    ∧ (calculateProjectStats fixedProject [entry90] []).effectiveHourlyRate
        = some (76923 / 100)
    ∧ round2 ((90 : ℚ) / 60) = 3 / 2
    ∧ round2 ((1000 : ℚ) / round2 ((90 : ℚ) / 60)) = 66667 / 100
    ∧ (calculateProjectStatsLegacy fixedProject [entry90] []).effectiveHourlyRate
        = some (66667 / 100) := by
  refine ⟨?_, ?_, ?_, ?_, ?_⟩ <;>
    norm_num [calculateProjectStats, calculateProjectStatsLegacy, completedFilter,
      durationNotNullFilter, effectiveRateSwitch, hoursMinutesEncoding, jsTruthy,
      jsOrZero, totalIncomeOf, round2, jsRound, fixedProject, entry90]

/-! ### C2 -/

/-- The completed-interval filter in the words of the spec: non-null end
instant and duration-minutes strictly greater than 0 (stated independently
of `completedFilter`, to be compared with it). -/
def specCompletedFilter (projectId : String) (e : TimeEntry) : Bool :=
  e.projectId == projectId && decide (e.endedAt ≠ none) &&
    decide (0 < jsOrZero e.durationMinutes)

theorem completedFilter_eq_spec (pid : String) (e : TimeEntry) :
    completedFilter pid e = specCompletedFilter pid e := by
  unfold completedFilter specCompletedFilter jsOrZero
  cases e.endedAt <;> cases h : e.durationMinutes <;> simp [h]

theorem calculateProjectStats_totalHours (project : Project) (db : List TimeEntry)
    (payments : List Payment) :
    (calculateProjectStats project db payments).totalHours
      = hoursMinutesEncoding
          (((db.filter (completedFilter project.id)).map
            fun x => jsOrZero x.durationMinutes).sum) := by
  show hoursMinutesEncoding
      (List.foldl (fun sum e => sum + jsOrZero e.durationMinutes) 0
        (db.filter (completedFilter project.id))) = _
  rw [foldl_add_eq_sum fun x => jsOrZero x.durationMinutes]
  norm_num

theorem calculateProjectStats_rate (project : Project) (db : List TimeEntry)
    (payments : List Payment) :
    (calculateProjectStats project db payments).effectiveHourlyRate
      = effectiveRateSwitch project (db.filter (completedFilter project.id))
          ((calculateProjectStats project db payments).totalHours) := rfl

theorem calculateProjectStats_congr (project : Project) {db1 db2 : List TimeEntry}
    (payments : List Payment)
    (h : db1.filter (completedFilter project.id) = db2.filter (completedFilter project.id)) :
    calculateProjectStats project db1 payments
      = calculateProjectStats project db2 payments := by
  unfold calculateProjectStats
  rw [h]

/-- C2: `calculateProjectStats` counts an interval toward `totalHours`
exactly when its end instant is non-null and its duration is strictly
positive: `totalHours` is the (encoded) total of minutes over intervals
passing that filter, and inserting an open interval or one with exactly 0
recorded minutes anywhere in the database leaves the whole result
unchanged. -/
theorem C2_only_completed_count (project : Project) (dbL dbR : List TimeEntry)
    (payments : List Payment) (e : TimeEntry) :
    ((calculateProjectStats project (dbL ++ dbR) payments).totalHours
      = hoursMinutesEncoding
          ((((dbL ++ dbR).filter (specCompletedFilter project.id)).map
            fun x => jsOrZero x.durationMinutes).sum))
    ∧ ((e.endedAt = none ∨ e.durationMinutes = some 0) →
        calculateProjectStats project (dbL ++ e :: dbR) payments
          = calculateProjectStats project (dbL ++ dbR) payments) := by
  constructor
  · rw [calculateProjectStats_totalHours]
    rw [List.filter_congr fun x _ => completedFilter_eq_spec project.id x]
  · intro he
    have hfalse : completedFilter project.id e = false := by
      unfold completedFilter
      rcases he with h | h <;> simp [h]
    refine calculateProjectStats_congr project payments ?_
    simp [List.filter_append, List.filter_cons, hfalse]

/-- C2 witness: inserting the zero-minute interval `entryZero` in front of
`entry90` changes nothing. -/
theorem C2_witness :
    (entryZero.endedAt = none ∨ entryZero.durationMinutes = some 0)
    ∧ calculateProjectStats fixedProject ([] ++ entryZero :: [entry90]) []
        = calculateProjectStats fixedProject ([] ++ [entry90]) [] :=
  ⟨Or.inr (by decide),
    (C2_only_completed_count fixedProject [] [entry90] [] entryZero).2
      (Or.inr (by decide))⟩

/-! ### C3 -/

/-- C3 counterexample: an HOURLY project with `hourlyRate = 50` and zero
completed intervals gets `effectiveHourlyRate = 50`, not null — the HOURLY
branch returns the configured rate without looking at `totalHours`. -/
theorem C3_counterexample :
    (calculateProjectStats hourlyProject [] []).totalHours = 0
    ∧ (calculateProjectStats hourlyProject [] []).effectiveHourlyRate = some 50
    ∧ (some (50 : ℚ) ≠ none) := by
  refine ⟨?_, ?_, by simp⟩ <;>
    norm_num [calculateProjectStats, completedFilter, effectiveRateSwitch,
      hoursMinutesEncoding, jsTruthy, jsOrZero, totalIncomeOf, hourlyProject]

/-- C3 (amended): with zero completed intervals `totalHours = 0` and
`effectiveHourlyRate` is null for FIXED_TOTAL and RECURRING_PERIOD; for
HOURLY it is the configured `hourlyRate` whenever that is set and nonzero
(null otherwise), independently of the tracked hours. -/
theorem C3_zero_completed_intervals (project : Project) (db : List TimeEntry)
    (payments : List Payment)
    (h : db.filter (completedFilter project.id) = []) :
    (calculateProjectStats project db payments).totalHours = 0
    ∧ ((project.billingMode = .FIXED_TOTAL ∨ project.billingMode = .RECURRING_PERIOD) →
        (calculateProjectStats project db payments).effectiveHourlyRate = none)
    ∧ (project.billingMode = .HOURLY →
        (calculateProjectStats project db payments).effectiveHourlyRate
          = if jsTruthy project.hourlyRate then project.hourlyRate else none) := by
  have ht : (calculateProjectStats project db payments).totalHours = 0 := by
    rw [calculateProjectStats_totalHours, h]
    simpa using hoursMinutesEncoding_zero
  refine ⟨ht, ?_, ?_⟩
  · intro hmode
    rw [calculateProjectStats_rate, ht]
    unfold effectiveRateSwitch
    rcases hmode with h1 | h1 <;> rw [h1] <;> simp
  · intro hmode
    rw [calculateProjectStats_rate, ht]
    unfold effectiveRateSwitch
    rw [hmode]

/-- C3 witness: the amended statement at the HOURLY project with an empty
database. -/
theorem C3_witness :
    ([] : List TimeEntry).filter (completedFilter hourlyProject.id) = []
    ∧ ((calculateProjectStats hourlyProject [] []).totalHours = 0
       ∧ ((hourlyProject.billingMode = .FIXED_TOTAL
            ∨ hourlyProject.billingMode = .RECURRING_PERIOD) →
           (calculateProjectStats hourlyProject [] []).effectiveHourlyRate = none)
       ∧ (hourlyProject.billingMode = .HOURLY →
           (calculateProjectStats hourlyProject [] []).effectiveHourlyRate
             = if jsTruthy hourlyProject.hourlyRate then hourlyProject.hourlyRate
               else none)) :=
  ⟨rfl, C3_zero_completed_intervals hourlyProject [] [] rfl⟩

/-! ### C10 -/

theorem periodKeyOfMs_of_ne_weekly {pt : Option String} (h : pt ≠ some "WEEKLY")
    (ms : Int) : periodKeyOfMs pt ms = monthKeyOfMs ms := by
  unfold periodKeyOfMs
  simp [h]

theorem countBillingPeriods_of_ne_weekly (l : List TimeEntry) {pt : Option String}
    (h : pt ≠ some "WEEKLY") :
    countBillingPeriods l pt = countBillingPeriods l (some "MONTHLY") := by
  unfold countBillingPeriods
  have hm : some "MONTHLY" ≠ some "WEEKLY" := by simp
  simp only [periodKeyOfMs_of_ne_weekly h, periodKeyOfMs_of_ne_weekly hm]

theorem effectiveRateSwitch_of_ne_weekly (project : Project) (l : List TimeEntry)
    (th : ℚ) (h : project.recurringPeriodType ≠ some "WEEKLY") :
    effectiveRateSwitch project l th
      = effectiveRateSwitch { project with recurringPeriodType := some "MONTHLY" } l th := by
  unfold effectiveRateSwitch
  cases hm : project.billingMode <;>
    simp [hm, countBillingPeriods_of_ne_weekly l h]

/-- C10: for any recurring-period type other than `'WEEKLY'` — `'CUSTOM'`,
null, `'MONTHLY'` itself, or anything else — `countBillingPeriods` falls
through to the monthly `YYYY-MM` bucketing, and both `calculateProjectStats`
and `calculateProjectBillableAmount` behave exactly as if the period type
were `'MONTHLY'`. -/
theorem C10_custom_buckets_monthly :
    (∀ (entries : List TimeEntry) (pt : Option String), pt ≠ some "WEEKLY" →
        countBillingPeriods entries pt = countBillingPeriods entries (some "MONTHLY"))
    ∧ (∀ (project : Project) (db : List TimeEntry) (payments : List Payment),
        project.recurringPeriodType ≠ some "WEEKLY" →
          calculateProjectStats project db payments
            = calculateProjectStats
                { project with recurringPeriodType := some "MONTHLY" } db payments
          ∧ calculateProjectBillableAmount project db
            = calculateProjectBillableAmount
                { project with recurringPeriodType := some "MONTHLY" } db) := by
  constructor
  · intro entries pt h
    exact countBillingPeriods_of_ne_weekly entries h
  · intro project db payments h
    constructor
    · unfold calculateProjectStats
      have hrate := effectiveRateSwitch_of_ne_weekly project
        (db.filter (completedFilter project.id))
        (hoursMinutesEncoding
          ((db.filter (completedFilter project.id)).foldl
            (fun sum e => sum + jsOrZero e.durationMinutes) 0)) h
      exact congrArg (fun r => ProjectStats.mk
        (hoursMinutesEncoding
          ((db.filter (completedFilter project.id)).foldl
            (fun sum e => sum + jsOrZero e.durationMinutes) 0))
        (totalIncomeOf project.id payments) r) hrate
    · unfold calculateProjectBillableAmount
      cases hm : project.billingMode <;>
        simp [hm, countBillingPeriods_of_ne_weekly
          (db.filter (durationNotNullFilter project.id)) h]

/-- A RECURRING_PERIOD project whose period type is the `'CUSTOM'` value. -/
def recurringCustomProject : Project :=
  { id := "p1", userId := "u1", billingMode := .RECURRING_PERIOD,
    fixedTotalAmount := none, recurringAmount := some 1200,
    recurringPeriodType := some "CUSTOM", hourlyRate := none }

/-- C10 witness: the `'CUSTOM'` period type at a concrete project and
database. -/
theorem C10_witness :
    ((some "CUSTOM" : Option String) ≠ some "WEEKLY")
    ∧ countBillingPeriods [entry90] (some "CUSTOM")
        = countBillingPeriods [entry90] (some "MONTHLY")
    ∧ (calculateProjectStats recurringCustomProject [entry90] []
        = calculateProjectStats
            { recurringCustomProject with recurringPeriodType := some "MONTHLY" }
            [entry90] []
       ∧ calculateProjectBillableAmount recurringCustomProject [entry90]
        = calculateProjectBillableAmount
            { recurringCustomProject with recurringPeriodType := some "MONTHLY" }
            [entry90]) :=
  ⟨by simp,
    C10_custom_buckets_monthly.1 [entry90] (some "CUSTOM") (by simp),
    C10_custom_buckets_monthly.2 recurringCustomProject [entry90] [] (by simp [recurringCustomProject])⟩

/-! ### C5 -/

theorem completedFilter_duration_ge_one {pid : String} {e : TimeEntry}
    (h : completedFilter pid e = true) : 1 ≤ jsOrZero e.durationMinutes := by
  unfold completedFilter at h
  cases hd : e.durationMinutes with
  | none => rw [hd] at h; simp at h
  | some d =>
    rw [hd] at h
    simp only [Bool.and_eq_true, decide_eq_true_eq] at h
    simp only [jsOrZero, hd]
    omega

theorem totalHours_pos_of_completed_ne_nil (project : Project) (db : List TimeEntry)
    (payments : List Payment) (hne : db.filter (completedFilter project.id) ≠ []) :
    0 < (calculateProjectStats project db payments).totalHours := by
  rw [calculateProjectStats_totalHours]
  apply hoursMinutesEncoding_pos
  have h1 : 1 ≤ (((db.filter (completedFilter project.id)).map
      fun x => jsOrZero x.durationMinutes).sum) := by
    apply sum_ge_one_of_forall_ge_one
    · simpa [List.map_eq_nil_iff] using hne
    · intro x hx
      rcases List.mem_map.mp hx with ⟨e, he, rfl⟩
      exact completedFilter_duration_ge_one (List.of_mem_filter he)
  omega

theorem countBillingPeriods_eq_dedup (l : List TimeEntry) (pt : Option String) :
    countBillingPeriods l pt
      = ((l.map fun e => periodKeyOfMs pt e.startedAt).dedup).length := by
  unfold countBillingPeriods
  by_cases h : l.length = 0
  · rw [List.length_eq_zero.mp h]; simp
  · simp [h]

/-- C5: for a RECURRING_PERIOD project with a configured (nonzero) recurring
amount and at least one completed interval, `calculateProjectStats` returns
`effectiveHourlyRate = round2(recurringAmount × periodCount / totalHours)`
where `periodCount` is the number of distinct period keys (week-start ISO
dates for `'WEEKLY'`, `YYYY-MM` month keys otherwise — see `periodKeyOfMs`)
among the completed intervals; when the recurring amount is unset or no
interval is completed, the rate is null. -/
theorem C5_recurring_period_rate (project : Project) (db : List TimeEntry)
    (payments : List Payment)
    (hmode : project.billingMode = .RECURRING_PERIOD) :
    (∀ a : ℚ, project.recurringAmount = some a → 0 < a →
      db.filter (completedFilter project.id) ≠ [] →
        0 < (calculateProjectStats project db payments).totalHours
        ∧ 0 < (((db.filter (completedFilter project.id)).map
              fun e => periodKeyOfMs project.recurringPeriodType e.startedAt).dedup).length
        ∧ (calculateProjectStats project db payments).effectiveHourlyRate
            = some (round2 (a *
                (((((db.filter (completedFilter project.id)).map
                  fun e => periodKeyOfMs project.recurringPeriodType e.startedAt).dedup).length : ℚ))
                / (calculateProjectStats project db payments).totalHours)))
    ∧ ((project.recurringAmount = none ∨ db.filter (completedFilter project.id) = []) →
        (calculateProjectStats project db payments).effectiveHourlyRate = none) := by
  constructor
  · intro a ha hpos hne
    have hth := totalHours_pos_of_completed_ne_nil project db payments hne
    have hkc : 0 < (((db.filter (completedFilter project.id)).map
        fun e => periodKeyOfMs project.recurringPeriodType e.startedAt).dedup).length := by
      apply List.length_pos.mpr
      intro hd
      exact hne (by simpa [List.map_eq_nil_iff] using (List.dedup_eq_nil _).mp hd)
    refine ⟨hth, hkc, ?_⟩
    rw [calculateProjectStats_rate]
    unfold effectiveRateSwitch
    rw [hmode]
    rw [countBillingPeriods_eq_dedup]
    rw [ha]
    simp only [jsTruthy, Option.getD_some]
    rw [if_pos]
    · rw [if_pos hkc]
    · simp only [Bool.and_eq_true, decide_eq_true_eq]
      exact ⟨hth, hpos.ne'⟩
  · intro h
    rw [calculateProjectStats_rate]
    unfold effectiveRateSwitch
    rw [hmode]
    rcases h with ha | hS
    · rw [ha]
      simp [jsTruthy]
    · have hth : (calculateProjectStats project db payments).totalHours = 0 := by
        rw [calculateProjectStats_totalHours, hS]
        simpa using hoursMinutesEncoding_zero
      rw [hth]
      simp

/-- A RECURRING_PERIOD project billing 1200 per month. -/
def recurringMonthlyProject : Project :=
  { id := "p1", userId := "u1", billingMode := .RECURRING_PERIOD,
    fixedTotalAmount := none, recurringAmount := some 1200,
    recurringPeriodType := some "MONTHLY", hourlyRate := none }

/-- Three completed 600-minute intervals in three distinct months
(2024-01-15, 2024-02-15, 2024-03-15 UTC): 30 tracked hours in total. -/
def threeMonthEntries : List TimeEntry :=
  [{ id := "a1", projectId := "p1", userId := "u1", startedAt := 1705276800000,
     endedAt := some (1705276800000 + 600 * 60000), durationMinutes := some 600,
     note := none },
   { id := "a2", projectId := "p1", userId := "u1", startedAt := 1707955200000,
     endedAt := some (1707955200000 + 600 * 60000), durationMinutes := some 600,
     note := none },
   { id := "a3", projectId := "p1", userId := "u1", startedAt := 1710460800000,
     endedAt := some (1710460800000 + 600 * 60000), durationMinutes := some 600,
     note := none }]

/-- C5 witness: 1200 per month, intervals in 3 distinct months, 30 tracked
hours — the rate is 120.00. -/
theorem C5_witness :
    recurringMonthlyProject.billingMode = .RECURRING_PERIOD
    ∧ recurringMonthlyProject.recurringAmount = some 1200
    ∧ (0 : ℚ) < 1200
    ∧ threeMonthEntries.filter (completedFilter recurringMonthlyProject.id) ≠ []
    ∧ 0 < (calculateProjectStats recurringMonthlyProject threeMonthEntries []).totalHours
    ∧ (((threeMonthEntries.filter (completedFilter recurringMonthlyProject.id)).map
          fun e => periodKeyOfMs recurringMonthlyProject.recurringPeriodType
            e.startedAt).dedup).length = 3
    ∧ (calculateProjectStats recurringMonthlyProject threeMonthEntries []).totalHours = 30
    ∧ (calculateProjectStats recurringMonthlyProject threeMonthEntries []).effectiveHourlyRate
        = some 120 := by
  have hkc : (((threeMonthEntries.filter (completedFilter recurringMonthlyProject.id)).map
      fun e => periodKeyOfMs recurringMonthlyProject.recurringPeriodType
        e.startedAt).dedup).length = 3 := by decide
  have hth : (calculateProjectStats recurringMonthlyProject threeMonthEntries []).totalHours
      = 30 := by
    rw [calculateProjectStats_totalHours]
    norm_num [threeMonthEntries, recurringMonthlyProject, completedFilter, jsOrZero,
      hoursMinutesEncoding]
  have hmain := (C5_recurring_period_rate recurringMonthlyProject threeMonthEntries []
    rfl).1 1200 rfl (by norm_num) (by decide)
  refine ⟨rfl, rfl, by norm_num, by decide, hmain.1, hkc, hth, ?_⟩
  rw [hmain.2.2, hkc, hth]
  norm_num [round2, jsRound]

/-! ### C7 -/

/-- C7: stopping an existing open owned interval sets the end instant to the
current time, stores `round((end − start) / 60000)` as the duration and the
(falsy-coerced) note; a stop within half a minute of the start yields
duration 0 rather than an error; when no matching open owned interval
exists, stop fails with the 404 not-found error. -/
theorem C7_stop_semantics (db : Db) (projectId timeEntryId userId : String)
    (now : Int) (note : Option String) (te : TimeEntry) :
    (findOpenEntry db projectId timeEntryId userId = some te →
      stopTimeEntry db projectId timeEntryId userId now note
        = .ok (setEntry db timeEntryId
            { te with
              endedAt := some now,
              durationMinutes :=
                some (jsRound (((now - te.startedAt : Int) : ℚ) / (1000 * 60))),
              note := jsStrOrNull note },
          { te with
            endedAt := some now,
            durationMinutes :=
              some (jsRound (((now - te.startedAt : Int) : ℚ) / (1000 * 60))),
            note := jsStrOrNull note }))
    ∧ (0 ≤ now - te.startedAt → 2 * (now - te.startedAt) < 60000 →
        jsRound (((now - te.startedAt : Int) : ℚ) / (1000 * 60)) = 0)
    ∧ jsStrOrNull none = none
    ∧ (∀ s : String, s ≠ "" → jsStrOrNull (some s) = some s)
    ∧ (findOpenEntry db projectId timeEntryId userId = none →
        stopTimeEntry db projectId timeEntryId userId now note
          = .error (.notFoundError "Active time entry not found" 404)) := by
  refine ⟨?_, ?_, rfl, ?_, ?_⟩
  · intro hfind
    unfold stopTimeEntry
    rw [hfind]
  · intro h0 hlt
    unfold jsRound
    rw [Int.floor_eq_zero_iff]
    have hq0 : (0 : ℚ) ≤ ((now - te.startedAt : Int) : ℚ) := by exact_mod_cast h0
    have hqlt : ((now - te.startedAt : Int) : ℚ) < 30000 := by
      have : (2 * (now - te.startedAt) : Int) < 60000 := hlt
      have h2 : ((2 * (now - te.startedAt) : Int) : ℚ) < 60000 := by exact_mod_cast this
      push_cast at h2 ⊢
      linarith
    constructor
    · have : (0 : ℚ) ≤ ((now - te.startedAt : Int) : ℚ) / (1000 * 60) := by positivity
      linarith
    · have : ((now - te.startedAt : Int) : ℚ) / (1000 * 60) < 1 / 2 := by
        rw [div_lt_iff₀ (by norm_num : (0 : ℚ) < 1000 * 60)]
        linarith
      linarith
  · intro s hs
    simp [jsStrOrNull, hs]
  · intro hfind
    unfold stopTimeEntry
    rw [hfind]

/-- C7 witness: stopping the open interval `entryOpen` at its own start
instant succeeds with duration 0. -/
theorem C7_witness :
    findOpenEntry (Db.mk [fixedProject] [entryOpen]) "p1" "t2" "u1" = some entryOpen
    ∧ stopTimeEntry (Db.mk [fixedProject] [entryOpen]) "p1" "t2" "u1"
        1705276800000 none
        = .ok (setEntry (Db.mk [fixedProject] [entryOpen]) "t2"
            { entryOpen with
              endedAt := some 1705276800000,
              durationMinutes := some (jsRound
                (((1705276800000 - entryOpen.startedAt : Int) : ℚ) / (1000 * 60))),
              note := jsStrOrNull none },
          { entryOpen with
            endedAt := some 1705276800000,
            durationMinutes := some (jsRound
              (((1705276800000 - entryOpen.startedAt : Int) : ℚ) / (1000 * 60))),
            note := jsStrOrNull none })
    ∧ 0 ≤ 1705276800000 - entryOpen.startedAt
    ∧ 2 * (1705276800000 - entryOpen.startedAt) < 60000
    ∧ jsRound (((1705276800000 - entryOpen.startedAt : Int) : ℚ) / (1000 * 60)) = 0 := by
  have h := C7_stop_semantics (Db.mk [fixedProject] [entryOpen]) "p1" "t2" "u1"
    1705276800000 none entryOpen
  exact ⟨by decide, h.1 (by decide), by decide, by decide,
    h.2.1 (by decide) (by decide)⟩

/-! ### C8 -/

/-- C8: when the (user, project) scope has no open interval, start creates a
new interval with `startedAt = now` and null end, duration and note; when an
open interval exists in scope, start fails with the conflict error whose
message points at the project being timed (the open entry necessarily
belongs to the request's own project, since the scope is per-project) and
creates nothing. -/
theorem C8_start_semantics (db : Db) (projectId userId : String) (now : Int)
    (newId : String) (proj : Project) :
    (findProject db projectId userId = some proj →
      findActiveEntry db projectId userId = none →
      startTimeEntry db projectId userId now newId
        = .ok ({ db with entries := db.entries ++
            [{ id := newId, projectId := projectId, userId := userId,
               startedAt := now, endedAt := none, durationMinutes := none,
               note := none }] },
            { id := newId, projectId := projectId, userId := userId,
              startedAt := now, endedAt := none, durationMinutes := none,
              note := none }))
    ∧ (∀ a : TimeEntry, findProject db projectId userId = some proj →
        findActiveEntry db projectId userId = some a →
          startTimeEntry db projectId userId now newId
            = .error (.conflictError
                "You already have a timer running on this project." 400)
          ∧ a.projectId = projectId ∧ a.userId = userId ∧ a.endedAt = none) := by
  constructor
  · intro hp hactive
    unfold startTimeEntry
    rw [hp, hactive]
  · intro a hp hactive
    have hpred := List.find?_some hactive
    simp only [Bool.and_eq_true, beq_iff_eq] at hpred
    refine ⟨?_, hpred.1.2, hpred.1.1, hpred.2⟩
    unfold startTimeEntry
    rw [hp, hactive]

/-- C8 witness: a successful start on an empty scope, and a conflicting
start while `entryOpen` is running on the same project. -/
theorem C8_witness :
    (findProject (Db.mk [fixedProject] []) "p1" "u1" = some fixedProject
     ∧ findActiveEntry (Db.mk [fixedProject] []) "p1" "u1" = none
     ∧ startTimeEntry (Db.mk [fixedProject] []) "p1" "u1" 1705276800000 "n1"
        = .ok ({ Db.mk [fixedProject] [] with entries := [] ++
            [{ id := "n1", projectId := "p1", userId := "u1",
               startedAt := 1705276800000, endedAt := none,
               durationMinutes := none, note := none }] },
            { id := "n1", projectId := "p1", userId := "u1",
              startedAt := 1705276800000, endedAt := none,
              durationMinutes := none, note := none }))
    ∧ (findProject (Db.mk [fixedProject] [entryOpen]) "p1" "u1" = some fixedProject
       ∧ findActiveEntry (Db.mk [fixedProject] [entryOpen]) "p1" "u1" = some entryOpen
       ∧ startTimeEntry (Db.mk [fixedProject] [entryOpen]) "p1" "u1"
            1705276800000 "n1"
          = .error (.conflictError
              "You already have a timer running on this project." 400)
       ∧ entryOpen.projectId = "p1" ∧ entryOpen.userId = "u1"
       ∧ entryOpen.endedAt = none) := by
  constructor
  · exact ⟨by decide, by decide,
      (C8_start_semantics (Db.mk [fixedProject] []) "p1" "u1" 1705276800000 "n1"
        fixedProject).1 (by decide) (by decide)⟩
  · have h := (C8_start_semantics (Db.mk [fixedProject] [entryOpen]) "p1" "u1"
      1705276800000 "n1" fixedProject).2 entryOpen (by decide) (by decide)
    exact ⟨by decide, by decide, h.1, h.2.1, h.2.2.1, h.2.2.2⟩

/-! ### C4 -/

theorem find?_map_replace (l : List TimeEntry) (tid : String) (e' : TimeEntry)
    (p : TimeEntry → Bool) (hp : p e' = true)
    (himp : ∀ x : TimeEntry, p x = true → x.id = tid)
    (hmem : ∃ x ∈ l, x.id = tid) :
    (l.map fun x => if x.id == tid then e' else x).find? p = some e' := by
  induction l with
  | nil => simp at hmem
  | cons a l ih =>
    rcases hmem with ⟨x, hx, hxid⟩
    by_cases ha : a.id = tid
    · simp only [List.map_cons, ha, beq_self_eq_true, if_true]
      exact List.find?_cons_of_pos _ hp
    · have hpa : ¬ p a = true := fun hpa => ha (himp a hpa)
      have hb : (a.id == tid) = false := by simp [ha]
      simp only [List.map_cons, hb, Bool.false_eq_true, if_false]
      rw [List.find?_cons_of_neg _ hpa]
      apply ih
      rcases List.mem_cons.mp hx with rfl | hxl
      · exact absurd hxid ha
      · exact ⟨x, hxl, hxid⟩

/-- C4: resuming a closed source interval owned by the (project, user) scope
mutates that same record — end instant and duration become null and the
start instant is rewritten to `now − previousDuration` minutes — so that a
subsequent stop at any later instant stores
`previousDuration + round(elapsed-since-resume)` as the new duration; and
whenever the scope already has an open interval, resume fails with the
running-timer conflict error and returns without touching any record. -/
theorem C4_resume_semantics (db : Db) (projectId timeEntryId userId : String)
    (now : Int) (proj : Project) (e : TimeEntry) :
    (findProject db projectId userId = some proj →
     findActiveEntry db projectId userId = none →
     findResumeSource db projectId timeEntryId userId = some e →
      (resumeTimeEntry db projectId timeEntryId userId now
        = .ok (setEntry db timeEntryId
            { e with
              startedAt := now - jsOrZero e.durationMinutes * 60 * 1000,
              endedAt := none,
              durationMinutes := none },
          { e with
            startedAt := now - jsOrZero e.durationMinutes * 60 * 1000,
            endedAt := none,
            durationMinutes := none }))
      ∧ (∀ (later : Int) (note : Option String), ∃ db2 : Db,
          stopTimeEntry (setEntry db timeEntryId
              { e with
                startedAt := now - jsOrZero e.durationMinutes * 60 * 1000,
                endedAt := none,
                durationMinutes := none })
            projectId timeEntryId userId later note
          = .ok (db2,
              { e with
                startedAt := now - jsOrZero e.durationMinutes * 60 * 1000,
                endedAt := some later,
                durationMinutes := some (jsOrZero e.durationMinutes
                  + jsRound (((later - now : Int) : ℚ) / (1000 * 60))),
                note := jsStrOrNull note })))
    ∧ (∀ a : TimeEntry, findProject db projectId userId = some proj →
        findActiveEntry db projectId userId = some a →
        resumeTimeEntry db projectId timeEntryId userId now
          = .error (.conflictError
              "You already have a timer running on this project." 400)) := by
  constructor
  · intro hp hactive hsrc
    have hpred := List.find?_some hsrc
    simp only [Bool.and_eq_true, beq_iff_eq, bne_iff_ne, ne_eq] at hpred
    obtain ⟨⟨⟨hide, hpide⟩, huide⟩, hende⟩ := hpred
    have hmem : ∃ x ∈ db.entries, x.id = timeEntryId :=
      ⟨e, List.mem_of_find?_eq_some hsrc, hide⟩
    constructor
    · unfold resumeTimeEntry
      rw [hp, hactive, hsrc]
    · intro later note
      refine ⟨setEntry (setEntry db timeEntryId
          { e with
            startedAt := now - jsOrZero e.durationMinutes * 60 * 1000,
            endedAt := none,
            durationMinutes := none }) timeEntryId
          { e with
            startedAt := now - jsOrZero e.durationMinutes * 60 * 1000,
            endedAt := some later,
            durationMinutes := some (jsOrZero e.durationMinutes
              + jsRound (((later - now : Int) : ℚ) / (1000 * 60))),
            note := jsStrOrNull note }, ?_⟩
      have hfound : findOpenEntry (setEntry db timeEntryId
          { e with
            startedAt := now - jsOrZero e.durationMinutes * 60 * 1000,
            endedAt := none,
            durationMinutes := none }) projectId timeEntryId userId
          = some { e with
              startedAt := now - jsOrZero e.durationMinutes * 60 * 1000,
              endedAt := none,
              durationMinutes := none } := by
        unfold findOpenEntry setEntry
        apply find?_map_replace
        · simp [hide, hpide, huide]
        · intro x hx
          simp only [Bool.and_eq_true, beq_iff_eq] at hx
          exact hx.1.1.1
        · exact hmem
      unfold stopTimeEntry
      rw [hfound]
      dsimp only
      have harith : jsRound (((later -
          (now - jsOrZero e.durationMinutes * 60 * 1000) : Int) : ℚ) / (1000 * 60))
          = jsOrZero e.durationMinutes
            + jsRound (((later - now : Int) : ℚ) / (1000 * 60)) := by
        have hcast : ((later - (now - jsOrZero e.durationMinutes * 60 * 1000) : Int) : ℚ)
              / (1000 * 60)
            = ((later - now : Int) : ℚ) / (1000 * 60)
              + ((jsOrZero e.durationMinutes : Int) : ℚ) := by
          push_cast
          ring
        rw [hcast, jsRound_add_int, add_comm]
      rw [harith]
  · intro a hp hactive
    unfold resumeTimeEntry
    rw [hp, hactive]

/-- A closed 95-minute interval of `fixedProject`, the resume source of the
C4 witness. -/
def entryClosed95 : TimeEntry :=
  { id := "t9", projectId := "p1", userId := "u1",
    startedAt := 1705276800000, endedAt := some (1705276800000 + 95 * 60000),
    durationMinutes := some 95, note := some "wrote spec" }

/-- C4 witness: resuming `entryClosed95` back-dates its start by 95 minutes,
and a stop 10 minutes later stores 105 minutes. -/
theorem C4_witness :
    (findProject (Db.mk [fixedProject] [entryClosed95]) "p1" "u1" = some fixedProject
     ∧ findActiveEntry (Db.mk [fixedProject] [entryClosed95]) "p1" "u1" = none
     ∧ findResumeSource (Db.mk [fixedProject] [entryClosed95]) "p1" "t9" "u1"
        = some entryClosed95)
    ∧ resumeTimeEntry (Db.mk [fixedProject] [entryClosed95]) "p1" "t9" "u1"
        1710460800000
        = .ok (setEntry (Db.mk [fixedProject] [entryClosed95]) "t9"
            { entryClosed95 with
              startedAt := 1710460800000 - jsOrZero entryClosed95.durationMinutes * 60 * 1000,
              endedAt := none,
              durationMinutes := none },
          { entryClosed95 with
            startedAt := 1710460800000 - jsOrZero entryClosed95.durationMinutes * 60 * 1000,
            endedAt := none,
            durationMinutes := none })
    ∧ (∃ db2 : Db,
        stopTimeEntry (setEntry (Db.mk [fixedProject] [entryClosed95]) "t9"
            { entryClosed95 with
              startedAt := 1710460800000 - jsOrZero entryClosed95.durationMinutes * 60 * 1000,
              endedAt := none,
              durationMinutes := none })
          "p1" "t9" "u1" (1710460800000 + 10 * 60000) none
        = .ok (db2,
            { entryClosed95 with
              startedAt := 1710460800000 - jsOrZero entryClosed95.durationMinutes * 60 * 1000,
              endedAt := some (1710460800000 + 10 * 60000),
              durationMinutes := some (jsOrZero entryClosed95.durationMinutes
                + jsRound ((((1710460800000 + 10 * 60000) - 1710460800000 : Int) : ℚ)
                    / (1000 * 60))),
              note := jsStrOrNull none }))
    ∧ jsOrZero entryClosed95.durationMinutes
        + jsRound ((((1710460800000 + 10 * 60000) - 1710460800000 : Int) : ℚ)
            / (1000 * 60)) = 105 := by
  have h := (C4_resume_semantics (Db.mk [fixedProject] [entryClosed95]) "p1" "t9" "u1"
    1710460800000 fixedProject entryClosed95).1 (by decide) (by decide) (by decide)
  refine ⟨⟨by decide, by decide, by decide⟩, h.1,
    h.2 (1710460800000 + 10 * 60000) none, ?_⟩
  have : jsRound ((((1710460800000 + 10 * 60000) - 1710460800000 : Int) : ℚ)
      / (1000 * 60)) = 10 := by
    norm_num [jsRound]
  rw [this]
  decide

/-! ### C6 -/

/-- The patch that closes `entryClosed95` one minute before its start. -/
def backdatingPatch : TimeEntryPatch :=
  { startedAt := none, endedAt := some (some (1705276800000 - 60000)),
    durationMinutes := none, note := none }

/-- C6 counterexample: the project-scoped update route accepts a patch whose
end instant is one minute before the start instant of the (closed) entry —
it succeeds and stores `durationMinutes = -1` instead of failing with a
ValidationError. -/
theorem C6_counterexample :
    updateTimeEntry (Db.mk [fixedProject] [entryClosed95]) "p1" "t9" "u1"
        backdatingPatch
      = .ok (setEntry (Db.mk [fixedProject] [entryClosed95]) "t9"
          { entryClosed95 with
            endedAt := some (1705276800000 - 60000),
            durationMinutes := some (-1) },
        { entryClosed95 with
          endedAt := some (1705276800000 - 60000),
          durationMinutes := some (-1) })
    ∧ (1705276800000 - 60000 : Int) ≤ entryClosed95.startedAt := by
  constructor
  · have harith : jsRound (((1705276800000 - 60000 - entryClosed95.startedAt : Int) : ℚ)
        / (1000 * 60)) = -1 := by
      norm_num [jsRound, entryClosed95]
    unfold updateTimeEntry
    rw [show findProject (Db.mk [fixedProject] [entryClosed95]) "p1" "u1"
        = some fixedProject by decide]
    rw [show findOwnedEntry (Db.mk [fixedProject] [entryClosed95]) "p1" "t9" "u1"
        = some entryClosed95 by decide]
    dsimp only [backdatingPatch]
    rw [harith]
  · decide

/-- C6 (amended): on the project-scoped update route an explicit duration
override is stored in preference to any recomputation; with no override the
duration is re-derived as `round((end − start) / 60000)` whenever the
patched entry is closed, and set to null when the patch clears the end
instant; the `end ≤ start` ValidationError, however, is raised only by the
user-scoped update route of `routes/timeEntries.ts` — the project-scoped
route performs no temporal-order validation. -/
theorem C6_update_semantics :
    (∀ (db : Db) (projectId timeEntryId userId : String) (patch : TimeEntryPatch)
        (proj : Project) (te : TimeEntry),
      findProject db projectId userId = some proj →
      findOwnedEntry db projectId timeEntryId userId = some te →
      ∃ (db2 : Db) (u : TimeEntry),
        updateTimeEntry db projectId timeEntryId userId patch = .ok (db2, u)
        ∧ (∀ v : Option Int, patch.durationMinutes = some v → u.durationMinutes = v)
        ∧ (patch.durationMinutes = none → ∀ endMs : Int,
            u.endedAt = some endMs →
            u.durationMinutes
              = some (jsRound (((endMs - u.startedAt : Int) : ℚ) / (1000 * 60))))
        ∧ (patch.durationMinutes = none → patch.endedAt = some none →
            u.durationMinutes = none))
    ∧ (∀ (db : Db) (timeEntryId userId : String) (patch : TimeEntryPatchUserScoped)
        (te : TimeEntry) (endMs : Int),
      db.entries.find? (fun e => e.id == timeEntryId && e.userId == userId) = some te →
      (match patch.endedAt with
       | some v => some v
       | none => te.endedAt) = some endMs →
      endMs ≤ (match patch.startedAt with
       | some s => s
       | none => te.startedAt) →
      updateTimeEntryUserScoped db timeEntryId userId patch
        = .error (.validationError "End time must be after start time" 400)) := by
  constructor
  · intro db projectId timeEntryId userId patch proj te hp howned
    unfold updateTimeEntry
    rw [hp, howned]
    dsimp only
    refine ⟨_, _, rfl, ?_, ?_, ?_⟩
    · intro v hv
      simp only [hv]
    · intro hd endMs hEnd
      dsimp only at hEnd
      simp only [hd, hEnd]
    · intro hd hclear
      simp only [hd, hclear]
  · intro db timeEntryId userId patch te endMs hfind hEnd hle
    unfold updateTimeEntryUserScoped
    rw [hfind]
    dsimp only
    rw [hEnd]
    dsimp only
    rw [if_pos hle]

/-- C6 witness: an explicit override of 45 minutes wins over recomputation
on the project-scoped route, while the user-scoped route rejects an
end-before-start patch. -/
theorem C6_witness :
    (findProject (Db.mk [fixedProject] [entryClosed95]) "p1" "u1" = some fixedProject
     ∧ findOwnedEntry (Db.mk [fixedProject] [entryClosed95]) "p1" "t9" "u1"
        = some entryClosed95
     ∧ ∃ (db2 : Db) (u : TimeEntry),
        updateTimeEntry (Db.mk [fixedProject] [entryClosed95]) "p1" "t9" "u1"
            (TimeEntryPatch.mk none none (some (some 45)) none)
          = .ok (db2, u)
        ∧ u.durationMinutes = some 45)
    ∧ ((Db.mk [fixedProject] [entryClosed95]).entries.find?
          (fun e => e.id == "t9" && e.userId == "u1") = some entryClosed95
       ∧ (match (TimeEntryPatchUserScoped.mk none
            (some (1705276800000 - 60000)) none).endedAt with
          | some v => some v
          | none => entryClosed95.endedAt) = some (1705276800000 - 60000)
       ∧ (1705276800000 - 60000 : Int)
          ≤ (match (TimeEntryPatchUserScoped.mk none
              (some (1705276800000 - 60000)) none).startedAt with
             | some s => s
             | none => entryClosed95.startedAt)
       ∧ updateTimeEntryUserScoped (Db.mk [fixedProject] [entryClosed95]) "t9" "u1"
            (TimeEntryPatchUserScoped.mk none (some (1705276800000 - 60000)) none)
          = .error (.validationError "End time must be after start time" 400)) := by
  constructor
  · obtain ⟨db2, u, hok, hover, -, -⟩ := C6_update_semantics.1
      (Db.mk [fixedProject] [entryClosed95]) "p1" "t9" "u1"
      (TimeEntryPatch.mk none none (some (some 45)) none) fixedProject entryClosed95
      (by decide) (by decide)
    exact ⟨by decide, by decide, db2, u, hok, hover (some 45) rfl⟩
  · refine ⟨by decide, by decide, by decide, ?_⟩
    exact C6_update_semantics.2 (Db.mk [fixedProject] [entryClosed95]) "t9" "u1"
      (TimeEntryPatchUserScoped.mk none (some (1705276800000 - 60000)) none)
      entryClosed95 (1705276800000 - 60000) (by decide) (by decide) (by decide)

/-! ### C9 -/

/-- The TimeEntry invariant of the spec: end instant and duration are both
null or both non-null. -/
def intervalInvariant (e : TimeEntry) : Prop :=
  e.endedAt = none ↔ e.durationMinutes = none

/-- Every entry of the database satisfies `intervalInvariant`. -/
def dbInvariant (db : Db) : Prop := ∀ e ∈ db.entries, intervalInvariant e

theorem dbInvariant_setEntry {db : Db} (tid : String) {u : TimeEntry}
    (hdb : dbInvariant db) (hu : intervalInvariant u) :
    dbInvariant (setEntry db tid u) := by
  intro e he
  simp only [setEntry] at he
  rcases List.mem_map.mp he with ⟨x, hx, rfl⟩
  by_cases h : (x.id == tid) = true
  · simpa [h] using hu
  · simp only [Bool.not_eq_true] at h
    simpa [h] using hdb x hx

/-- C9 counterexample: updating an open interval with only an explicit
`durationMinutes = 50` override succeeds and leaves an entry whose end
instant is null while its duration is non-null — the invariant is broken by
the update operation. -/
theorem C9_counterexample :
    dbInvariant (Db.mk [fixedProject] [entryOpen])
    ∧ updateTimeEntry (Db.mk [fixedProject] [entryOpen]) "p1" "t2" "u1"
        (TimeEntryPatch.mk none none (some (some 50)) none)
      = .ok (setEntry (Db.mk [fixedProject] [entryOpen]) "t2"
          { entryOpen with durationMinutes := some 50 },
        { entryOpen with durationMinutes := some 50 })
    ∧ ¬ intervalInvariant { entryOpen with durationMinutes := some 50 }
    ∧ ¬ dbInvariant (setEntry (Db.mk [fixedProject] [entryOpen]) "t2"
        { entryOpen with durationMinutes := some 50 }) := by
  refine ⟨?_, rfl, ?_, ?_⟩
  · unfold dbInvariant intervalInvariant
    decide
  · unfold intervalInvariant
    decide
  · unfold dbInvariant intervalInvariant
    decide

/-- C9 (amended): start, stop, resume and delete preserve the invariant that
end instant and duration are both null or both non-null, and so do both
update routes whenever no explicit duration override is supplied; an update
carrying an explicit `durationMinutes` override can break it (see the
counterexample). -/
theorem C9_invariant_preservation :
    (∀ (db : Db) (pid uid : String) (now : Int) (nid : String) (db2 : Db)
        (e : TimeEntry), dbInvariant db →
        startTimeEntry db pid uid now nid = .ok (db2, e) → dbInvariant db2)
    ∧ (∀ (db : Db) (pid tid uid : String) (now : Int) (note : Option String)
        (db2 : Db) (e : TimeEntry), dbInvariant db →
        stopTimeEntry db pid tid uid now note = .ok (db2, e) → dbInvariant db2)
    ∧ (∀ (db : Db) (pid tid uid : String) (now : Int) (db2 : Db) (e : TimeEntry),
        dbInvariant db →
        resumeTimeEntry db pid tid uid now = .ok (db2, e) → dbInvariant db2)
    ∧ (∀ (db : Db) (pid tid uid : String) (db2 : Db), dbInvariant db →
        deleteTimeEntry db pid tid uid = .ok db2 → dbInvariant db2)
    ∧ (∀ (db : Db) (pid tid uid : String) (patch : TimeEntryPatch) (db2 : Db)
        (e : TimeEntry), dbInvariant db → patch.durationMinutes = none →
        updateTimeEntry db pid tid uid patch = .ok (db2, e) → dbInvariant db2)
    ∧ (∀ (db : Db) (tid uid : String) (patch : TimeEntryPatchUserScoped) (db2 : Db)
        (e : TimeEntry), dbInvariant db →
        updateTimeEntryUserScoped db tid uid patch = .ok (db2, e) → dbInvariant db2) := by
  refine ⟨?_, ?_, ?_, ?_, ?_, ?_⟩
  · intro db pid uid now nid db2 e hdb h
    unfold startTimeEntry at h
    cases hfp : findProject db pid uid with
    | none => rw [hfp] at h; exact absurd h (by simp)
    | some proj =>
      rw [hfp] at h
      cases hfa : findActiveEntry db pid uid with
      | some a => rw [hfa] at h; exact absurd h (by simp)
      | none =>
        rw [hfa] at h
        simp only [Except.ok.injEq, Prod.mk.injEq] at h
        obtain ⟨rfl, -⟩ := h
        intro x hx
        rcases List.mem_append.mp hx with hx | hx
        · exact hdb x hx
        · simp only [List.mem_singleton] at hx
          subst hx
          simp [intervalInvariant]
  · intro db pid tid uid now note db2 e hdb h
    unfold stopTimeEntry at h
    cases hfo : findOpenEntry db pid tid uid with
    | none => rw [hfo] at h; exact absurd h (by simp)
    | some te =>
      rw [hfo] at h
      simp only [Except.ok.injEq, Prod.mk.injEq] at h
      obtain ⟨rfl, -⟩ := h
      exact dbInvariant_setEntry tid hdb (by simp [intervalInvariant])
  · intro db pid tid uid now db2 e hdb h
    unfold resumeTimeEntry at h
    cases hfp : findProject db pid uid with
    | none => rw [hfp] at h; exact absurd h (by simp)
    | some proj =>
      rw [hfp] at h
      cases hfa : findActiveEntry db pid uid with
      | some a => rw [hfa] at h; exact absurd h (by simp)
      | none =>
        rw [hfa] at h
        cases hfs : findResumeSource db pid tid uid with
        | none => rw [hfs] at h; exact absurd h (by simp)
        | some src =>
          rw [hfs] at h
          simp only [Except.ok.injEq, Prod.mk.injEq] at h
          obtain ⟨rfl, -⟩ := h
          exact dbInvariant_setEntry tid hdb (by simp [intervalInvariant])
  · intro db pid tid uid db2 hdb h
    unfold deleteTimeEntry at h
    cases hfp : findProject db pid uid with
    | none => rw [hfp] at h; exact absurd h (by simp)
    | some proj =>
      rw [hfp] at h
      cases hfo : findOwnedEntry db pid tid uid with
      | none => rw [hfo] at h; exact absurd h (by simp)
      | some te =>
        rw [hfo] at h
        simp only [Except.ok.injEq] at h
        subst h
        intro x hx
        exact hdb x (List.mem_of_mem_filter hx)
  · intro db pid tid uid patch db2 e hdb hno h
    unfold updateTimeEntry at h
    cases hfp : findProject db pid uid with
    | none => rw [hfp] at h; exact absurd h (by simp)
    | some proj =>
      rw [hfp] at h
      cases hfo : findOwnedEntry db pid tid uid with
      | none => rw [hfo] at h; exact absurd h (by simp)
      | some te =>
        rw [hfo] at h
        dsimp only at h
        simp only [hno] at h
        simp only [Except.ok.injEq, Prod.mk.injEq] at h
        obtain ⟨rfl, -⟩ := h
        apply dbInvariant_setEntry tid hdb
        cases hend : (match patch.endedAt with
            | some v => v
            | none => te.endedAt) with
        | none => simp [intervalInvariant, hend]
        | some endMs => simp [intervalInvariant, hend]
  · intro db tid uid patch db2 e hdb h
    unfold updateTimeEntryUserScoped at h
    cases hf : db.entries.find? (fun x => x.id == tid && x.userId == uid) with
    | none => rw [hf] at h; exact absurd h (by simp)
    | some te =>
      rw [hf] at h
      dsimp only at h
      cases hend : (match patch.endedAt with
          | some v => some v
          | none => te.endedAt) with
      | some endMs =>
        rw [hend] at h
        dsimp only at h
        by_cases hle : endMs ≤ (match patch.startedAt with
            | some s => s
            | none => te.startedAt)
        · rw [if_pos hle] at h; exact absurd h (by simp)
        · rw [if_neg hle] at h
          simp only [Except.ok.injEq, Prod.mk.injEq] at h
          obtain ⟨rfl, -⟩ := h
          exact dbInvariant_setEntry tid hdb (by simp [intervalInvariant])
      | none =>
        rw [hend] at h
        dsimp only at h
        simp only [Except.ok.injEq, Prod.mk.injEq] at h
        obtain ⟨rfl, -⟩ := h
        apply dbInvariant_setEntry tid hdb
        have hte := hdb te (List.mem_of_find?_eq_some hf)
        simpa [intervalInvariant] using hte

/-- C9 witness: the amended preservation statement at a concrete successful
start. -/
theorem C9_witness :
    dbInvariant (Db.mk [fixedProject] [])
    ∧ startTimeEntry (Db.mk [fixedProject] []) "p1" "u1" 1705276800000 "n1"
        = .ok (Db.mk [fixedProject] ([] ++
            [{ id := "n1", projectId := "p1", userId := "u1",
               startedAt := 1705276800000, endedAt := none,
               durationMinutes := none, note := none }]),
            { id := "n1", projectId := "p1", userId := "u1",
              startedAt := 1705276800000, endedAt := none,
              durationMinutes := none, note := none })
    ∧ dbInvariant (Db.mk [fixedProject] ([] ++
        [{ id := "n1", projectId := "p1", userId := "u1",
           startedAt := 1705276800000, endedAt := none,
           durationMinutes := none, note := none }])) := by
  refine ⟨?_, rfl, ?_⟩
  · unfold dbInvariant intervalInvariant
    decide
  · exact C9_invariant_preservation.1 (Db.mk [fixedProject] []) "p1" "u1"
      1705276800000 "n1" _ _ (by unfold dbInvariant intervalInvariant; decide) rfl

end ButterflyManager
